import Mathlib

/-
Verification of the `alloc_system` platform allocator backend
(src/src/lib.rs): a thin layer over the native libc heap primitives,
adding alignment handling beyond the platform guarantee, fallback
reallocation, and fatal out-of-memory handling.

Modelling choices:
* Pointers are natural numbers; address 0 is the null pointer.
* The native libc allocator is a deterministic oracle (`Native`): each
  primitive's return value is a function of its arguments.  This lets
  theorems quantify over every possible native behavior, including
  failure (a returned 0).
* Machine state is a byte memory `Nat → Nat` together with the trace of
  native calls made so far, so "delegates to", "never retried", "no
  bytes copied" and "not released" are statements about the trace and
  the memory.
* `calloc` zeroes the returned region as part of the native model (its
  C contract); `malloc` and `posix_memalign` leave memory unspecified,
  modelled as unchanged.
-/

namespace AllocSystem

/-- A memory request: byte size and alignment (alloc::heap::Layout as
used by src/src/lib.rs). -/
structure Layout where
  size : Nat
  align : Nat
deriving DecidableEq, Repr

/-- Allocation errors as constructed in src/src/lib.rs: exhaustion
carries the request Layout, unsupported operations carry a static
description. -/
inductive AllocErr where
  | Exhausted (request : Layout)
  | Unsupported (details : String)
deriving DecidableEq, Repr

/-- Failure marker for in-place reallocation
(alloc::heap::CannotReallocInPlace). -/
inductive CannotReallocInPlace where
  | mk
deriving DecidableEq, Repr

/-- The minimum alignment guaranteed by the architecture
(src/src/lib.rs lines 23-30): 8 on 32-bit arm, the 3DS target of this
crate. -/
def MIN_ALIGN : Nat := 8

/-- A native allocator call issued by the backend, recorded in the
trace.  A `ret`/`out` of 0 models a returned null pointer. -/
inductive Event where
  | malloc (size : Nat) (ret : Nat)
  | calloc (nmemb size : Nat) (ret : Nat)
  | reallocNative (ptr size : Nat) (ret : Nat)
  | free (ptr : Nat)
  | posixMemalign (align size : Nat) (retCode : Nat) (out : Nat)
deriving DecidableEq, Repr

/-- The native libc allocator, modelled as a deterministic oracle.
`posix_memalign` returns (return code, out pointer).  The two
tolerance predicates model the platform-defined grow/shrink tolerance
of the native in-place resize, used only by the spec-modelled
`grow_in_place`/`shrink_in_place`. -/
structure Native where
  malloc : Nat → Nat
  calloc : Nat → Nat → Nat
  realloc : Nat → Nat → Nat
  posix_memalign : Nat → Nat → Nat × Nat
  growToleranceOk : Nat → Nat → Nat → Bool
  shrinkToleranceOk : Nat → Nat → Nat → Bool

/-- Machine state: the byte at each address, and the trace of native
allocator calls made so far. -/
structure State where
  mem : Nat → Nat
  trace : List Event

/-- Append one native call to the trace. -/
def pushEvent (s : State) (e : Event) : State :=
  { s with trace := s.trace ++ [e] }

/-- libc::malloc: the oracle chooses the address; the returned
region's contents are unspecified (memory unchanged). -/
def callMalloc (nv : Native) (s : State) (size : Nat) : Nat × State :=
  let r := nv.malloc size
  (r, pushEvent s (Event.malloc size r))

/-- Zero `count` bytes starting at `ptr`. -/
def zeroRange (m : Nat → Nat) (ptr count : Nat) : Nat → Nat :=
  fun a => if ptr ≤ a ∧ a < ptr + count then 0 else m a

/-- libc::calloc: on success the returned region of nmemb * size bytes
is zero (the C contract of calloc, part of the native model). -/
def callCalloc (nv : Native) (s : State) (nmemb size : Nat) : Nat × State :=
  let r := nv.calloc nmemb size
  let s' := pushEvent s (Event.calloc nmemb size r)
  if r = 0 then (r, s')
  else (r, { s' with mem := zeroRange s'.mem r (nmemb * size) })

/-- libc::realloc (the native resize primitive). -/
def callReallocNative (nv : Native) (s : State) (ptr size : Nat) : Nat × State :=
  let r := nv.realloc ptr size
  (r, pushEvent s (Event.reallocNative ptr size r))

/-- libc::free: records the release; no return value. -/
def callFree (s : State) (ptr : Nat) : State :=
  pushEvent s (Event.free ptr)

/-- core::ptr::write_bytes ptr val count. -/
def write_bytes (s : State) (ptr val count : Nat) : State :=
  { s with mem := fun a => if ptr ≤ a ∧ a < ptr + count then val else s.mem a }

/-- core::ptr::copy_nonoverlapping src dst count: the destination
region takes the source region's bytes, read from the pre-state. -/
def copy_nonoverlapping (s : State) (src dst count : Nat) : State :=
  { s with mem := fun a => if dst ≤ a ∧ a < dst + count then s.mem (src + (a - dst)) else s.mem a }

/-- aligned_malloc (src/src/lib.rs lines 240-250, the posix_memalign
variant): a nonzero return code yields null, otherwise the out
pointer. -/
def aligned_malloc (nv : Native) (s : State) (layout : Layout) : Nat × State :=
  let ro := nv.posix_memalign layout.align layout.size
  let s' := pushEvent s (Event.posixMemalign layout.align layout.size ro.1 ro.2)
  if ro.1 ≠ 0 then (0, s') else (ro.2, s')

/-- The pointer aligned_malloc produces, as a pure function of the
oracle and the layout. -/
def aligned_malloc_ptr (nv : Native) (layout : Layout) : Nat :=
  let ro := nv.posix_memalign layout.align layout.size
  if ro.1 ≠ 0 then 0 else ro.2

/-- The event aligned_malloc records. -/
def aligned_malloc_event (nv : Native) (layout : Layout) : Event :=
  Event.posixMemalign layout.align layout.size
    (nv.posix_memalign layout.align layout.size).1
    (nv.posix_memalign layout.align layout.size).2

namespace System

/-- System::alloc (src/src/lib.rs lines 121-133): branch on the
alignment, then turn a null pointer into Exhausted. -/
def alloc (nv : Native) (s : State) (layout : Layout) :
    Except AllocErr Nat × State :=
  let ps := if layout.align ≤ MIN_ALIGN
            then callMalloc nv s layout.size
            else aligned_malloc nv s layout
  if ps.1 ≠ 0 then (Except.ok ps.1, ps.2)
  else (Except.error (AllocErr.Exhausted layout), ps.2)

/-- System::alloc_zeroed (src/src/lib.rs lines 135-153). -/
def alloc_zeroed (nv : Native) (s : State) (layout : Layout) :
    Except AllocErr Nat × State :=
  if layout.align ≤ MIN_ALIGN then
    let ps := callCalloc nv s layout.size 1
    if ps.1 ≠ 0 then (Except.ok ps.1, ps.2)
    else (Except.error (AllocErr.Exhausted layout), ps.2)
  else
    let rs := alloc nv s layout
    match rs with
    | (Except.ok ptr, s') => (Except.ok ptr, write_bytes s' ptr 0 layout.size)
    | (Except.error e, s') => (Except.error e, s')

/-- System::dealloc (src/src/lib.rs lines 155-158): unconditionally
libc::free, the layout argument unused. -/
def dealloc (s : State) (ptr : Nat) (_layout : Layout) : State :=
  callFree s ptr

/-- System::realloc (src/src/lib.rs lines 160-187). -/
def realloc (nv : Native) (s : State) (ptr : Nat)
    (old_layout new_layout : Layout) : Except AllocErr Nat × State :=
  if old_layout.align ≠ new_layout.align then
    (Except.error (AllocErr.Unsupported "cannot change alignment on `realloc`"), s)
  else if new_layout.align ≤ MIN_ALIGN then
    let ps := callReallocNative nv s ptr new_layout.size
    if ps.1 ≠ 0 then (Except.ok ps.1, ps.2)
    else (Except.error (AllocErr.Exhausted new_layout), ps.2)
  else
    let rs := alloc nv s new_layout
    match rs with
    | (Except.ok new_ptr, s') =>
        let size := min old_layout.size new_layout.size
        let s2 := copy_nonoverlapping s' ptr new_ptr size
        (Except.ok new_ptr, dealloc s2 ptr old_layout)
    | (Except.error e, s') => (Except.error e, s')

/-- One observable step of the oom handler. -/
inductive OomStep where
  | rawWrite (fd : Nat) (str : String)
  | abortProc
deriving DecidableEq, Repr

/-- The standard-error file descriptor (libc::STDERR_FILENO). -/
def STDERR_FILENO : Nat := 2

/-- Stderr::write_str (src/src/lib.rs lines 204-213): one raw
libc::write to stderr, then unconditionally Ok(()); the Bool is the
fmt::Result, true meaning Ok. -/
def Stderr.write_str (str : String) : List OomStep × Bool :=
  ([OomStep.rawWrite STDERR_FILENO str], true)

/-- System::oom (src/src/lib.rs lines 189-214).  The Display rendering
of AllocErr lives in the external alloc crate, so it is the parameter
fmtErr; writeln! produces the format text with the rendered error and
a trailing newline, its fmt::Result is dropped, and the handler then
aborts.  It never returns, so its whole behavior is its step trace. -/
def oom (fmtErr : AllocErr → String) (err : AllocErr) : List OomStep :=
  let line := "fatal runtime error: " ++ fmtErr err ++ "\n"
  let ws := Stderr.write_str line
  ws.1 ++ [OomStep.abortProc]

/-- Modelled from the spec: `usable_size` is not implemented in src/
(src/src/lib.rs lines 75-78 only forward to a default of the external
alloc crate).  Per the spec it returns, for the fast path, the
requested size as both bounds, performing no allocation: it is a pure
function of the layout, taking no allocator state. -/
def usable_size (layout : Layout) : Nat × Nat :=
  (layout.size, layout.size)

/-- Modelled from the spec: `grow_in_place` is not implemented in src/
(src/src/lib.rs lines 93-99 only forward to a default of the external
alloc crate).  Per the spec it fails with the unsupported-style
in-place error, never with Exhausted, for any request whose alignment
exceeds MIN_ALIGN, and otherwise defers to the native resize
primitive's platform-defined grow tolerance. -/
def grow_in_place (nv : Native) (ptr : Nat) (old_layout new_layout : Layout) :
    Except CannotReallocInPlace Unit :=
  if MIN_ALIGN < new_layout.align then Except.error CannotReallocInPlace.mk
  else if nv.growToleranceOk ptr old_layout.size new_layout.size then Except.ok ()
  else Except.error CannotReallocInPlace.mk

/-- Modelled from the spec: `shrink_in_place` is not implemented in
src/ (src/src/lib.rs lines 101-107 only forward to a default of the
external alloc crate).  Per the spec it fails with the
unsupported-style in-place error, never with Exhausted, for any
request whose alignment exceeds MIN_ALIGN, and otherwise defers to the
native resize primitive's platform-defined shrink tolerance. -/
def shrink_in_place (nv : Native) (ptr : Nat) (old_layout new_layout : Layout) :
    Except CannotReallocInPlace Unit :=
  if MIN_ALIGN < new_layout.align then Except.error CannotReallocInPlace.mk
  else if nv.shrinkToleranceOk ptr old_layout.size new_layout.size then Except.ok ()
  else Except.error CannotReallocInPlace.mk

end System

/-- A concrete oracle on which every primitive fails. -/
def nvFail : Native :=
  ⟨fun _ => 0, fun _ _ => 0, fun _ _ => 0, fun _ _ => (1, 0),
   fun _ _ _ => false, fun _ _ _ => false⟩

/-- A concrete oracle on which every primitive succeeds at address 100. -/
def nvOk : Native :=
  ⟨fun _ => 100, fun _ _ => 100, fun _ _ => 100, fun _ _ => (0, 100),
   fun _ _ _ => true, fun _ _ _ => true⟩

/-- A concrete starting state with all-zero memory and empty trace. -/
def sZero : State := ⟨fun _ => 0, []⟩

/-- A concrete starting state where the byte at address a is a itself,
to observe copies. -/
def sId : State := ⟨fun a => a, []⟩

/-- Closed form of System.alloc: one native call (malloc on the fast
path, posix_memalign otherwise), errors exactly on a null pointer. -/
theorem alloc_unfold (nv : Native) (s : State) (layout : Layout) :
    System.alloc nv s layout =
      ((if (if layout.align ≤ MIN_ALIGN then nv.malloc layout.size
            else aligned_malloc_ptr nv layout) = 0
        then Except.error (AllocErr.Exhausted layout)
        else Except.ok (if layout.align ≤ MIN_ALIGN then nv.malloc layout.size
                        else aligned_malloc_ptr nv layout)),
       pushEvent s (if layout.align ≤ MIN_ALIGN
                    then Event.malloc layout.size (nv.malloc layout.size)
                    else aligned_malloc_event nv layout)) := by
  by_cases h : layout.align ≤ MIN_ALIGN
  · by_cases h0 : nv.malloc layout.size = 0 <;>
      simp [System.alloc, callMalloc, pushEvent, h, h0]
  · by_cases h1 : (nv.posix_memalign layout.align layout.size).1 = 0
    · by_cases h2 : (nv.posix_memalign layout.align layout.size).2 = 0 <;>
        simp [System.alloc, aligned_malloc, aligned_malloc_ptr,
              aligned_malloc_event, pushEvent, h, h1, h2]
    · simp [System.alloc, aligned_malloc, aligned_malloc_ptr,
            aligned_malloc_event, pushEvent, h, h1]

/-- C1: alloc delegates to native malloc when layout.align ≤ MIN_ALIGN
and to the alignment-aware aligned_malloc otherwise; exactly one
native call is made (never retried) and memory is untouched; a null
result from the chosen primitive yields the Exhausted error carrying
exactly the requested layout, otherwise the primitive's non-null
pointer is returned. -/
theorem alloc_delegation (nv : Native) (s : State) (layout : Layout) :
    System.alloc nv s layout =
      ((if (if layout.align ≤ MIN_ALIGN then nv.malloc layout.size
            else aligned_malloc_ptr nv layout) = 0
        then Except.error (AllocErr.Exhausted layout)
        else Except.ok (if layout.align ≤ MIN_ALIGN then nv.malloc layout.size
                        else aligned_malloc_ptr nv layout)),
       pushEvent s (if layout.align ≤ MIN_ALIGN
                    then Event.malloc layout.size (nv.malloc layout.size)
                    else aligned_malloc_event nv layout)) :=
  alloc_unfold nv s layout

/-- C10: dealloc ignores its Layout argument: for any two layouts the
action is identical, namely the unconditional native free of the
pointer. -/
theorem dealloc_layout_independent (s : State) (ptr : Nat) (l1 l2 : Layout) :
    System.dealloc s ptr l1 = System.dealloc s ptr l2 ∧
    System.dealloc s ptr l1 = callFree s ptr :=
  ⟨rfl, rfl⟩

/-- C2: realloc with differing alignments fails immediately with the
Unsupported error whose description says alignment cannot be changed,
and returns the state unchanged: no allocation, copy or release
happens, so the original allocation is untouched. -/
theorem realloc_align_mismatch (nv : Native) (s : State) (ptr : Nat)
    (ol nl : Layout) (h : ol.align ≠ nl.align) :
    System.realloc nv s ptr ol nl =
      (Except.error (AllocErr.Unsupported "cannot change alignment on `realloc`"), s) := by
  simp [System.realloc, h]

/-- Witness for C2 at layouts (16,8) and (8,16). -/
theorem realloc_align_mismatch_witness :
    (Layout.mk 16 8).align ≠ (Layout.mk 8 16).align ∧
    System.realloc nvFail sZero 0 (Layout.mk 16 8) (Layout.mk 8 16) =
      (Except.error (AllocErr.Unsupported "cannot change alignment on `realloc`"), sZero) :=
  ⟨by decide, realloc_align_mismatch nvFail sZero 0 _ _ (by decide)⟩

/-- C6: realloc with equal alignments within MIN_ALIGN delegates to
the native resize primitive; a null result yields the Exhausted error
carrying new_layout, otherwise the resized pointer is returned. -/
theorem realloc_fast_path (nv : Native) (s : State) (ptr : Nat)
    (ol nl : Layout) (h1 : ol.align = nl.align) (h2 : nl.align ≤ MIN_ALIGN) :
    System.realloc nv s ptr ol nl =
      ((if nv.realloc ptr nl.size = 0 then Except.error (AllocErr.Exhausted nl)
        else Except.ok (nv.realloc ptr nl.size)),
       pushEvent s (Event.reallocNative ptr nl.size (nv.realloc ptr nl.size))) := by
  by_cases h0 : nv.realloc ptr nl.size = 0 <;>
    simp [System.realloc, callReallocNative, pushEvent, h1, h2, h0]

/-- Witness for C6: on a failing native resize the error carries the
new layout (32,8), not the old one (16,8). -/
theorem realloc_fast_path_witness :
    (Layout.mk 16 8).align = (Layout.mk 32 8).align ∧
    (Layout.mk 32 8).align ≤ MIN_ALIGN ∧
    System.realloc nvFail sZero 5 (Layout.mk 16 8) (Layout.mk 32 8) =
      (Except.error (AllocErr.Exhausted (Layout.mk 32 8)),
       pushEvent sZero (Event.reallocNative 5 32 0)) :=
  ⟨rfl, by decide, by
    have h := realloc_fast_path nvFail sZero 5 (Layout.mk 16 8) (Layout.mk 32 8)
      rfl (by decide)
    exact h⟩

/-- C3: on the slow realloc path (equal alignments above MIN_ALIGN),
when the fresh allocation fails the failure (Exhausted new_layout) is
propagated unchanged, memory is untouched (no bytes copied) and no
free of the old block is recorded. -/
theorem realloc_slow_alloc_fail (nv : Native) (s : State) (ptr : Nat)
    (ol nl : Layout) (h1 : ol.align = nl.align) (h2 : MIN_ALIGN < nl.align)
    (h3 : aligned_malloc_ptr nv nl = 0) :
    System.realloc nv s ptr ol nl =
      (Except.error (AllocErr.Exhausted nl),
       pushEvent s (aligned_malloc_event nv nl)) ∧
    (System.realloc nv s ptr ol nl).2.mem = s.mem ∧
    (Event.free ptr ∈ (System.realloc nv s ptr ol nl).2.trace ↔
      Event.free ptr ∈ s.trace) := by
  have h2' : ¬ nl.align ≤ MIN_ALIGN := not_le.mpr h2
  have ha : System.alloc nv s nl =
      (Except.error (AllocErr.Exhausted nl),
       pushEvent s (aligned_malloc_event nv nl)) := by
    rw [alloc_unfold]
    simp [h2', h3]
  have hmain : System.realloc nv s ptr ol nl =
      (Except.error (AllocErr.Exhausted nl),
       pushEvent s (aligned_malloc_event nv nl)) := by
    unfold System.realloc
    rw [if_neg (by simp [h1]), if_neg h2', ha]
  refine ⟨hmain, ?_, ?_⟩ <;> rw [hmain] <;>
    simp [pushEvent, aligned_malloc_event]

/-- Witness for C3 with a failing posix_memalign oracle. -/
theorem realloc_slow_alloc_fail_witness :
    MIN_ALIGN < (Layout.mk 8 16).align ∧
    aligned_malloc_ptr nvFail (Layout.mk 8 16) = 0 ∧
    System.realloc nvFail sId 10 (Layout.mk 4 16) (Layout.mk 8 16) =
      (Except.error (AllocErr.Exhausted (Layout.mk 8 16)),
       pushEvent sId (aligned_malloc_event nvFail (Layout.mk 8 16))) :=
  ⟨by decide, by decide,
   (realloc_slow_alloc_fail nvFail sId 10 (Layout.mk 4 16) (Layout.mk 8 16)
     rfl (by decide) (by decide)).1⟩

/-- C4: on the slow realloc path with a successful fresh allocation,
exactly min(old size, new size) bytes are copied from the old block to
the new one (memory outside the copied range is untouched), the old
block is then released, and the new pointer is returned. -/
theorem realloc_slow_success (nv : Native) (s : State) (ptr : Nat)
    (ol nl : Layout) (h1 : ol.align = nl.align) (h2 : MIN_ALIGN < nl.align)
    (h3 : aligned_malloc_ptr nv nl ≠ 0) :
    (System.realloc nv s ptr ol nl).1 = Except.ok (aligned_malloc_ptr nv nl) ∧
    (∀ i, i < min ol.size nl.size →
      (System.realloc nv s ptr ol nl).2.mem (aligned_malloc_ptr nv nl + i) =
        s.mem (ptr + i)) ∧
    (∀ a, a < aligned_malloc_ptr nv nl ∨
          aligned_malloc_ptr nv nl + min ol.size nl.size ≤ a →
      (System.realloc nv s ptr ol nl).2.mem a = s.mem a) ∧
    (System.realloc nv s ptr ol nl).2.trace =
      s.trace ++ [aligned_malloc_event nv nl, Event.free ptr] := by
  have h2' : ¬ nl.align ≤ MIN_ALIGN := not_le.mpr h2
  have ha : System.alloc nv s nl =
      (Except.ok (aligned_malloc_ptr nv nl),
       pushEvent s (aligned_malloc_event nv nl)) := by
    rw [alloc_unfold]
    simp [h2', h3]
  have hmain : System.realloc nv s ptr ol nl =
      (Except.ok (aligned_malloc_ptr nv nl),
       System.dealloc
         (copy_nonoverlapping (pushEvent s (aligned_malloc_event nv nl))
           ptr (aligned_malloc_ptr nv nl) (min ol.size nl.size))
         ptr ol) := by
    unfold System.realloc
    rw [if_neg (by simp [h1]), if_neg h2', ha]
  refine ⟨by rw [hmain], ?_, ?_, ?_⟩
  · intro i hi
    rw [hmain]
    simp only [System.dealloc, callFree, pushEvent, copy_nonoverlapping]
    rw [if_pos ⟨Nat.le_add_right _ _, by omega⟩]
    simp
  · intro a haa
    rw [hmain]
    simp only [System.dealloc, callFree, pushEvent, copy_nonoverlapping]
    rw [if_neg (by omega)]
  · rw [hmain]
    simp [System.dealloc, callFree, pushEvent, copy_nonoverlapping]

/-- Witness for C4: with a succeeding aligned allocation at address
100 and memory holding its own address at each byte, the resized block
gets the old bytes and the call reports the new pointer. -/
theorem realloc_slow_success_witness :
    MIN_ALIGN < (Layout.mk 8 16).align ∧
    aligned_malloc_ptr nvOk (Layout.mk 8 16) ≠ 0 ∧
    (System.realloc nvOk sId 10 (Layout.mk 4 16) (Layout.mk 8 16)).1 =
      Except.ok 100 ∧
    (System.realloc nvOk sId 10 (Layout.mk 4 16) (Layout.mk 8 16)).2.mem 101 = 11 :=
  ⟨by decide, by decide,
   (realloc_slow_success nvOk sId 10 (Layout.mk 4 16) (Layout.mk 8 16)
     rfl (by decide) (by decide)).1,
   (realloc_slow_success nvOk sId 10 (Layout.mk 4 16) (Layout.mk 8 16)
     rfl (by decide) (by decide)).2.1 1 (by decide)⟩

/-- Closed form of System.alloc_zeroed: calloc on the fast path, alloc
followed by an explicit zero fill otherwise. -/
theorem alloc_zeroed_unfold (nv : Native) (s : State) (layout : Layout) :
    System.alloc_zeroed nv s layout =
      if layout.align ≤ MIN_ALIGN then
        (if nv.calloc layout.size 1 = 0 then
          (Except.error (AllocErr.Exhausted layout),
           pushEvent s (Event.calloc layout.size 1 0))
         else
          (Except.ok (nv.calloc layout.size 1),
           { mem := zeroRange s.mem (nv.calloc layout.size 1) (layout.size * 1),
             trace := s.trace ++ [Event.calloc layout.size 1 (nv.calloc layout.size 1)] }))
      else
        (if aligned_malloc_ptr nv layout = 0 then
          (Except.error (AllocErr.Exhausted layout),
           pushEvent s (aligned_malloc_event nv layout))
         else
          (Except.ok (aligned_malloc_ptr nv layout),
           write_bytes (pushEvent s (aligned_malloc_event nv layout))
             (aligned_malloc_ptr nv layout) 0 layout.size)) := by
  by_cases h : layout.align ≤ MIN_ALIGN
  · by_cases h0 : nv.calloc layout.size 1 = 0 <;>
      simp [System.alloc_zeroed, callCalloc, pushEvent, zeroRange, h, h0]
  · by_cases h0 : aligned_malloc_ptr nv layout = 0 <;>
      · have ha := alloc_unfold nv s layout
        rw [if_neg h] at ha
        simp only [System.alloc_zeroed, ha, h, h0]
        simp [h0]

/-- C5: alloc_zeroed branches on the same alignment test as alloc: on
the fast path it delegates to native calloc (one native call, no
separate clear pass), otherwise it performs a plain alloc and on
success zero fills the full requested size; every byte of a returned
region is zero, and any failure is the Exhausted error carrying the
requested layout, with memory untouched. -/
theorem alloc_zeroed_correct (nv : Native) (s : State) (layout : Layout) :
    (∀ p s', System.alloc_zeroed nv s layout = (Except.ok p, s') →
       ∀ i, i < layout.size → s'.mem (p + i) = 0) ∧
    (∀ e s', System.alloc_zeroed nv s layout = (Except.error e, s') →
       e = AllocErr.Exhausted layout ∧ s'.mem = s.mem) ∧
    (System.alloc_zeroed nv s layout).2.trace =
      s.trace ++ [if layout.align ≤ MIN_ALIGN
                  then Event.calloc layout.size 1 (nv.calloc layout.size 1)
                  else aligned_malloc_event nv layout] := by
  have hu := alloc_zeroed_unfold nv s layout
  by_cases h : layout.align ≤ MIN_ALIGN
  · rw [if_pos h] at hu
    by_cases h0 : nv.calloc layout.size 1 = 0
    · rw [if_pos h0] at hu
      refine ⟨?_, ?_, ?_⟩
      · intro p s' hp
        rw [hu] at hp
        simp at hp
      · intro e s' hp
        rw [hu] at hp
        rw [Prod.mk.injEq] at hp
        obtain ⟨he, hs⟩ := hp
        simp only [Except.error.injEq] at he
        subst he hs
        exact ⟨rfl, rfl⟩
      · rw [hu, if_pos h, h0]
        simp [pushEvent]
    · rw [if_neg h0] at hu
      refine ⟨?_, ?_, ?_⟩
      · intro p s' hp
        rw [hu, Prod.mk.injEq] at hp
        obtain ⟨he, hs⟩ := hp
        simp only [Except.ok.injEq] at he
        subst he hs
        intro i hi
        simp only [zeroRange]
        rw [if_pos ⟨Nat.le_add_right _ _, by omega⟩]
      · intro e s' hp
        rw [hu] at hp
        simp at hp
      · rw [hu, if_pos h]
  · rw [if_neg h] at hu
    by_cases h0 : aligned_malloc_ptr nv layout = 0
    · rw [if_pos h0] at hu
      refine ⟨?_, ?_, ?_⟩
      · intro p s' hp
        rw [hu] at hp
        simp at hp
      · intro e s' hp
        rw [hu, Prod.mk.injEq] at hp
        obtain ⟨he, hs⟩ := hp
        simp only [Except.error.injEq] at he
        subst he hs
        exact ⟨rfl, rfl⟩
      · rw [hu, if_neg h]
        simp [pushEvent]
    · rw [if_neg h0] at hu
      refine ⟨?_, ?_, ?_⟩
      · intro p s' hp
        rw [hu, Prod.mk.injEq] at hp
        obtain ⟨he, hs⟩ := hp
        simp only [Except.ok.injEq] at he
        subst he hs
        intro i hi
        simp only [write_bytes, pushEvent]
        rw [if_pos ⟨Nat.le_add_right _ _, by omega⟩]
      · intro e s' hp
        rw [hu] at hp
        simp at hp
      · rw [hu, if_neg h]
        simp [write_bytes, pushEvent]

/-- Witness for C5: a fast-path zeroed allocation at address 100 over
non-zero memory has zero bytes in the returned region. -/
theorem alloc_zeroed_correct_witness :
    System.alloc_zeroed nvOk sId (Layout.mk 4 8) =
      (Except.ok 100, (System.alloc_zeroed nvOk sId (Layout.mk 4 8)).2) ∧
    (System.alloc_zeroed nvOk sId (Layout.mk 4 8)).2.mem (100 + 2) = 0 :=
  ⟨rfl,
   (alloc_zeroed_correct nvOk sId (Layout.mk 4 8)).1 100
     (System.alloc_zeroed nvOk sId (Layout.mk 4 8)).2 rfl 2 (by decide)⟩

/-- C7: the oom handler's whole behavior is one raw write to standard
error of the line "fatal runtime error: " followed by the rendered
failure and a newline, then an unconditional abort; the raw write path
always reports success, so the dropped fmt result can never carry an
error. -/
theorem oom_behavior (fmtErr : AllocErr → String) (err : AllocErr) :
    System.oom fmtErr err =
      [System.OomStep.rawWrite System.STDERR_FILENO
        ("fatal runtime error: " ++ fmtErr err ++ "\n"),
       System.OomStep.abortProc] ∧
    ∀ str, (System.Stderr.write_str str).2 = true :=
  ⟨rfl, fun _ => rfl⟩

/-- C8: grow_in_place and shrink_in_place can only succeed or fail
with the in-place-resize error (never Exhausted); any request whose
alignment exceeds MIN_ALIGN fails with that error, and within the fast
path the outcome is exactly the native resize tolerance. -/
theorem in_place_resize_unsupported (nv : Native) (ptr : Nat) (ol nl : Layout) :
    (System.grow_in_place nv ptr ol nl = Except.ok () ∨
     System.grow_in_place nv ptr ol nl = Except.error CannotReallocInPlace.mk) ∧
    (System.shrink_in_place nv ptr ol nl = Except.ok () ∨
     System.shrink_in_place nv ptr ol nl = Except.error CannotReallocInPlace.mk) ∧
    (MIN_ALIGN < nl.align →
      System.grow_in_place nv ptr ol nl = Except.error CannotReallocInPlace.mk ∧
      System.shrink_in_place nv ptr ol nl = Except.error CannotReallocInPlace.mk) ∧
    (nl.align ≤ MIN_ALIGN →
      (System.grow_in_place nv ptr ol nl = Except.ok () ↔
        nv.growToleranceOk ptr ol.size nl.size = true) ∧
      (System.shrink_in_place nv ptr ol nl = Except.ok () ↔
        nv.shrinkToleranceOk ptr ol.size nl.size = true)) := by
  unfold System.grow_in_place System.shrink_in_place
  refine ⟨?_, ?_, ?_, ?_⟩
  · split_ifs <;> simp
  · split_ifs <;> simp
  · intro h
    rw [if_pos h, if_pos h]
    exact ⟨rfl, rfl⟩
  · intro h
    rw [if_neg (not_lt.mpr h), if_neg (not_lt.mpr h)]
    constructor <;> · split_ifs with ht <;> simp [ht]

/-- Witness for C8 at alignment 16, above MIN_ALIGN, on an oracle
whose native tolerance would accept everything: both in-place
operations still fail with the in-place-resize error. -/
theorem in_place_resize_unsupported_witness :
    MIN_ALIGN < (Layout.mk 16 16).align ∧
    System.grow_in_place nvOk 0 (Layout.mk 8 16) (Layout.mk 16 16) =
      Except.error CannotReallocInPlace.mk ∧
    System.shrink_in_place nvOk 0 (Layout.mk 8 16) (Layout.mk 16 16) =
      Except.error CannotReallocInPlace.mk :=
  ⟨by decide,
   ((in_place_resize_unsupported nvOk 0 (Layout.mk 8 16) (Layout.mk 16 16)).2.2.1
     (by decide)).1,
   ((in_place_resize_unsupported nvOk 0 (Layout.mk 8 16) (Layout.mk 16 16)).2.2.1
     (by decide)).2⟩

/-- C9: for every fast-path layout, usable_size reports the requested
size as both the guaranteed and the potential usable size; being a
pure function of the layout it performs no allocation. -/
theorem usable_size_fast_path (layout : Layout)
    (_h : layout.align ≤ MIN_ALIGN) :
    System.usable_size layout = (layout.size, layout.size) :=
  rfl

/-- Witness for C9 at layout (16,8). -/
theorem usable_size_fast_path_witness :
    (Layout.mk 16 8).align ≤ MIN_ALIGN ∧
    System.usable_size (Layout.mk 16 8) = (16, 16) :=
  ⟨by decide, usable_size_fast_path (Layout.mk 16 8) (by decide)⟩

end AllocSystem
